import Mathlib

/-! Shallow embedding of the item CRUD service: the storage client `Database`
(src/app/db.py), and — modelled from the spec, since their sources are imported
by db.py and the tests but absent from the repository — the blob store client
`S3Bucket` (src/app/s3.py) and the HTTP request handler (src/app/server.py). -/

/-- A Python dict with string keys and string values, in insertion order;
models one stored item record. -/
abbrev Item := List (String × String)

/-- Python exceptions the embedded code can raise: botocore's ClientError
(carrying an error code and message), NameError (an unbound name), and
KeyError (a missing dict key). -/
inductive PyErr where
  | clientError (code msg : String)
  | nameError (nm : String)
  | keyError (k : String)
  deriving Repr, DecidableEq

/-- Association-list lookup by string key (Python dict subscript, DynamoDB
key fetch, S3 key fetch). -/
def lookupKey : List (String × α) → String → Option α
  | [], _ => none
  | (k, v) :: rest, key => if k = key then some v else lookupKey rest key

/-- Insert-or-overwrite under a string key (DynamoDB put_item row semantics,
S3 put_object semantics). -/
def upsert : List (String × α) → String → α → List (String × α)
  | [], key, v => [(key, v)]
  | (k, w) :: rest, key, v =>
      if k = key then (key, v) :: rest else (k, w) :: upsert rest key v

/-- Remove every binding of a string key (DynamoDB delete_item, S3
delete_object); removing an absent key is a no-op. -/
def removeKey : List (String × α) → String → List (String × α)
  | [], _ => []
  | (k, w) :: rest, key =>
      if k = key then removeKey rest key else (k, w) :: removeKey rest key

/-- Joint state of the two storage backends: the DynamoDB table rows keyed by
the item's `id`, and the S3 bucket objects keyed by object name. -/
structure Store where
  table : List (String × Item)
  blobs : List (String × String)
  deriving Repr, DecidableEq

/-- One backend call, for recording which storage operations a code path
performs and in which order. -/
inductive StoreOp where
  | tableGet (i : String)
  | tablePut (item : Item)
  | tableDelete (i : String)
  | blobPut (key payload : String)
  | blobGet (key : String)
  | blobDelete (key : String)
  deriving Repr, DecidableEq

/-- Outcome chosen for one backend call: `some (code, msg)` makes the call
raise a botocore ClientError with that error code and message; `none` means
the backend accepts the call. -/
abbrev Fault := Option (String × String)

/-- The boto3 call `table.get_item(Key=...)`: returns the row stored under the
key; an absent row is not an error; a fault raises ClientError. -/
def boto3TableGet (f : Fault) (s : Store) (i : String) : Except PyErr (Option Item) :=
  match f with
  | some (c, m) => .error (.clientError c m)
  | none => .ok (lookupKey s.table i)

/-- The boto3 call `table.put_item(Item=...)`: overwrites the row keyed by the
item's `id`; an item missing the key attribute is rejected by DynamoDB with a
ClientError (ValidationException); a fault raises ClientError. -/
def boto3TablePut (f : Fault) (s : Store) (item : Item) : Except PyErr Store :=
  match f with
  | some (c, m) => .error (.clientError c m)
  | none =>
      match lookupKey item "id" with
      | none => .error (.clientError "ValidationException" "Missing the key id in the item")
      | some i => .ok { s with table := upsert s.table i item }

/-- The boto3 call `table.delete_item(Key=...)`: removes the row if present;
deleting an absent key is not an error; a fault raises ClientError. -/
def boto3TableDelete (f : Fault) (s : Store) (i : String) : Except PyErr Store :=
  match f with
  | some (c, m) => .error (.clientError c m)
  | none => .ok { s with table := removeKey s.table i }

/-- Modelled from the spec: S3Bucket.delete_object (src/app/s3.py is imported
by db.py but absent from the sources) — removes the object named by the key;
absence is not an error; a fault raises ClientError. -/
def S3Bucket.delete_object (f : Fault) (s : Store) (key : String) : Except PyErr Store :=
  match f with
  | some (c, m) => .error (.clientError c m)
  | none => .ok { s with blobs := removeKey s.blobs key }

/-- Modelled from the spec: S3Bucket.put_object (src/app/s3.py absent) — writes
or overwrites the object named by the key with the serialized payload. -/
def S3Bucket.put_object (f : Fault) (s : Store) (key payload : String) : Except PyErr Store :=
  match f with
  | some (c, m) => .error (.clientError c m)
  | none => .ok { s with blobs := upsert s.blobs key payload }

/-- Modelled from the spec: fetching an object from the blob store (src/app/s3.py
absent; the tests read it back directly) — the payload under the key, or absent. -/
def S3Bucket.get_object (s : Store) (key : String) : Option String :=
  lookupKey s.blobs key

/-- src/app/db.py, Database.get_item (lines 35-41): try the table fetch and
return the row (absent gives None); a ClientError is caught, its message
printed, and None returned; any other exception would propagate uncaught. -/
def Database.get_item (f : Fault) (s : Store) (item_id : String) :
    List StoreOp × Except PyErr (Option Item) :=
  ([.tableGet item_id],
    match boto3TableGet f s item_id with
    | .ok r => .ok r
    | .error (.clientError _ _) => .ok none
    | .error e => .error e)

/-- src/app/db.py, Database.put_item (lines 43-48): try the table write, then
`self.s3.put_object(item['id'], json.dumps(item))`. The name `json` is never
imported in db.py, so once the table write succeeds, evaluating the call's
arguments raises KeyError (if the item has no `id`) or NameError for `json`;
neither is caught by the `except ClientError` handler, so the exception
propagates and the blob write is never performed. A ClientError from the table
write itself is caught and printed. -/
def Database.put_item (f : Fault) (s : Store) (item : Item) :
    Store × List StoreOp × Except PyErr Unit :=
  match boto3TablePut f s item with
  | .error (.clientError _ _) => (s, [.tablePut item], .ok ())
  | .error e => (s, [.tablePut item], .error e)
  | .ok sNext =>
      match lookupKey item "id" with
      | none => (sNext, [.tablePut item], .error (.keyError "id"))
      | some _ => (sNext, [.tablePut item], .error (.nameError "json"))

/-- src/app/db.py, Database.delete_item (lines 50-55): try the table delete,
then the blob delete; a ClientError raised by either call is caught and its
message printed (so a ClientError from the table delete skips the blob delete). -/
def Database.delete_item (tf bf : Fault) (s : Store) (item_id : String) :
    Store × List StoreOp × Except PyErr Unit :=
  match boto3TableDelete tf s item_id with
  | .error (.clientError _ _) => (s, [.tableDelete item_id], .ok ())
  | .error e => (s, [.tableDelete item_id], .error e)
  | .ok sNext =>
      match S3Bucket.delete_object bf sNext item_id with
      | .error (.clientError _ _) => (sNext, [.tableDelete item_id, .blobDelete item_id], .ok ())
      | .error e => (sNext, [.tableDelete item_id, .blobDelete item_id], .error e)
      | .ok sFinal => (sFinal, [.tableDelete item_id, .blobDelete item_id], .ok ())

/-- How src/app/db.py Database._create_table resolves: the table loaded, or was
created after a ResourceNotFoundException, or the caught ClientError carried
another code and the handler's if-statement fell through, so the method
returned normally with the error swallowed. -/
inductive InitOutcome where
  | loaded
  | created
  | swallowed (code msg : String)
  deriving Repr, DecidableEq

/-- src/app/db.py, Database._create_table (lines 15-33), as a function of the
outcome of the existence check `self.table.load()`: a ClientError with code
ResourceNotFoundException triggers table creation (plus the wait for
readiness); a ClientError with any other code is caught and then ignored; a
non-ClientError exception is not caught and propagates. -/
def Database.create_table_step (load : Except PyErr Unit) : Except PyErr InitOutcome :=
  match load with
  | .ok _ => .ok .loaded
  | .error (.clientError code msg) =>
      if code = "ResourceNotFoundException" then .ok .created
      else .ok (.swallowed code msg)
  | .error e => .error e

/-- Modelled from the spec: a JSON response body of the request handler
(src/app/server.py absent) — a full item, a message object, or an error
object. -/
inductive Body where
  | item (it : Item)
  | msg (m : String)
  | err (m : String)
  deriving Repr, DecidableEq

/-- Modelled from the spec: an HTTP response of the request handler
(src/app/server.py absent): a status code and a JSON body. -/
structure Response where
  status : Nat
  body : Body
  deriving Repr, DecidableEq

/-- Modelled from the spec: the request handler's GET route for an item id
segment (src/app/server.py is referenced by the tests but absent) — an empty
id segment yields 400 without touching storage; otherwise the id is looked up
via Database.get_item and the item (200) or a not-found error (404) returned. -/
def handleGetItem (s : Store) (seg : String) : List StoreOp × Response :=
  if seg = "" then ([], ⟨400, .err "Item ID not provided"⟩)
  else
    match Database.get_item none s seg with
    | (tr, .ok (some it)) => (tr, ⟨200, .item it⟩)
    | (tr, _) => (tr, ⟨404, .err "Item not found"⟩)

/-- Modelled from the spec: the request handler's POST route (src/app/server.py
absent) — reads the body item's id (a missing id raises KeyError), pre-checks
existence via Database.get_item; 409 if the id exists, otherwise
Database.put_item and 201 (an exception escaping put_item aborts the request). -/
def handlePostItem (s : Store) (item : Item) : Store × List StoreOp × Except PyErr Response :=
  match lookupKey item "id" with
  | none => (s, [], .error (.keyError "id"))
  | some i =>
      match Database.get_item none s i with
      | (tr, .ok (some _)) => (s, tr, .ok ⟨409, .err "Item already exists"⟩)
      | (tr, _) =>
          match Database.put_item none s item with
          | (sNext, trPut, .ok _) => (sNext, tr ++ trPut, .ok ⟨201, .msg "Item created"⟩)
          | (sNext, trPut, .error e) => (sNext, tr ++ trPut, .error e)

/-- Modelled from the spec: the request handler's PUT route (src/app/server.py
absent) — pre-checks existence via Database.get_item; 404 if the id does not
exist (nothing is written), otherwise Database.put_item and 200. -/
def handlePutItem (s : Store) (item : Item) : Store × List StoreOp × Except PyErr Response :=
  match lookupKey item "id" with
  | none => (s, [], .error (.keyError "id"))
  | some i =>
      match Database.get_item none s i with
      | (tr, .ok (some _)) =>
          match Database.put_item none s item with
          | (sNext, trPut, .ok _) => (sNext, tr ++ trPut, .ok ⟨200, .msg "Item updated"⟩)
          | (sNext, trPut, .error e) => (sNext, tr ++ trPut, .error e)
      | (tr, _) => (s, tr, .ok ⟨404, .err "Item not found"⟩)

/-- Modelled from the spec: the request handler's DELETE route
(src/app/server.py absent) — pre-checks existence via Database.get_item; 404
if absent, otherwise Database.delete_item and 200. -/
def handleDeleteItem (s : Store) (i : String) : Store × List StoreOp × Except PyErr Response :=
  match Database.get_item none s i with
  | (tr, .ok (some _)) =>
      match Database.delete_item none none s i with
      | (sNext, trDel, .ok _) => (sNext, tr ++ trDel, .ok ⟨200, .msg "Item deleted"⟩)
      | (sNext, trDel, .error e) => (sNext, tr ++ trDel, .error e)
  | (tr, _) => (s, tr, .ok ⟨404, .err "Item not found"⟩)

/-- The concrete item used throughout the repository's tests. -/
def itemOne : Item := [("id", "1"), ("name", "Item 1")]

theorem lookupKey_removeKey (l : List (String × α)) (k : String) :
    lookupKey (removeKey l k) k = none := by
  induction l with
  | nil => rfl
  | cons p rest ih =>
      obtain ⟨a, b⟩ := p
      by_cases h : a = k
      · simp [removeKey, h, ih]
      · simp [removeKey, lookupKey, h, ih]

theorem removeKey_of_lookup_none (l : List (String × α)) (k : String)
    (h : lookupKey l k = none) : removeKey l k = l := by
  induction l with
  | nil => rfl
  | cons p rest ih =>
      obtain ⟨a, b⟩ := p
      by_cases hak : a = k
      · simp [lookupKey, hak] at h
      · simp [lookupKey, hak] at h
        simp [removeKey, hak, ih h]

theorem removeKey_idem (l : List (String × α)) (k : String) :
    removeKey (removeKey l k) k = removeKey l k :=
  removeKey_of_lookup_none _ _ (lookupKey_removeKey l k)

/-- Claim C1, evaluated at the failing input: creating itemOne via put_item
from the empty store raises NameError for `json`; the subsequent table fetch
does return the created item, but the blob store holds no mirrored serialized
copy — contradicting the repository's own test test_post_item, which asserts
the stored S3 object equals the created data. -/
theorem put_then_fetch_blob_absent :
    (Database.put_item none ⟨[], []⟩ itemOne).2.2 = .error (.nameError "json")
    ∧ (Database.get_item none (Database.put_item none ⟨[], []⟩ itemOne).1 "1").2 =
        .ok (some itemOne)
    ∧ S3Bucket.get_object (Database.put_item none ⟨[], []⟩ itemOne).1 "1" = none :=
  ⟨rfl, rfl, rfl⟩

/-- Claim C2: for every item carrying an `id`, put_item first applies the table
write and then raises an uncaught NameError for the unbound name `json` before
any blob-store write; under any backend outcome the blob store is untouched
and the operation trace holds only the table write, and when the table write
succeeds the table mutation stands despite the call erroring. -/
theorem put_item_raises_name_error (f : Fault) (s : Store) (item : Item) (i : String)
    (hid : lookupKey item "id" = some i) :
    Database.put_item none s item =
      ({ s with table := upsert s.table i item }, [.tablePut item],
        .error (.nameError "json"))
    ∧ (Database.put_item f s item).1.blobs = s.blobs
    ∧ (Database.put_item f s item).2.1 = [.tablePut item] := by
  refine ⟨?_, ?_, ?_⟩
  · simp [Database.put_item, boto3TablePut, hid]
  · cases f with
    | none => simp [Database.put_item, boto3TablePut, hid]
    | some cm =>
        obtain ⟨c, m⟩ := cm
        simp [Database.put_item, boto3TablePut]
  · cases f with
    | none => simp [Database.put_item, boto3TablePut, hid]
    | some cm =>
        obtain ⟨c, m⟩ := cm
        simp [Database.put_item, boto3TablePut]

theorem put_item_raises_name_error_witness :
    lookupKey itemOne "id" = some "1"
    ∧ (Database.put_item none ⟨[], []⟩ itemOne =
        ({ table := upsert ([] : List (String × Item)) "1" itemOne, blobs := [] },
          [.tablePut itemOne], .error (.nameError "json"))
      ∧ (Database.put_item none ⟨[], []⟩ itemOne).1.blobs = (⟨[], []⟩ : Store).blobs
      ∧ (Database.put_item none ⟨[], []⟩ itemOne).2.1 = [.tablePut itemOne]) :=
  ⟨by decide, put_item_raises_name_error none ⟨[], []⟩ itemOne "1" (by decide)⟩

/-- Claim C3 counterexample: a ClientError with code AccessDeniedException
raised by the existence check is caught by _create_table and then ignored —
the step returns normally with the error swallowed, so the error is not
surfaced to the caller as the claim states. -/
theorem create_table_swallows_client_error :
    Database.create_table_step (.error (.clientError "AccessDeniedException" "denied"))
      = .ok (.swallowed "AccessDeniedException" "denied")
    ∧ Database.create_table_step (.error (.clientError "AccessDeniedException" "denied"))
      ≠ .error (.clientError "AccessDeniedException" "denied") := by
  constructor
  · simp [Database.create_table_step]
  · simp [Database.create_table_step]

/-- Claim C3 amended: during the existence check, a non-ClientError exception
(NameError, KeyError, ...) propagates out of _create_table and fails
initialization, while a ClientError whose code is not ResourceNotFoundException
is caught and silently swallowed — the step returns normally without creating
the table; a ResourceNotFoundException ClientError triggers creation. -/
theorem create_table_error_cases (nm k code msg : String)
    (hc : code ≠ "ResourceNotFoundException") :
    Database.create_table_step (.error (.nameError nm)) = .error (.nameError nm)
    ∧ Database.create_table_step (.error (.keyError k)) = .error (.keyError k)
    ∧ Database.create_table_step (.error (.clientError code msg)) = .ok (.swallowed code msg)
    ∧ Database.create_table_step (.error (.clientError "ResourceNotFoundException" msg))
        = .ok .created := by
  refine ⟨rfl, rfl, ?_, rfl⟩
  simp [Database.create_table_step, hc]

theorem create_table_error_cases_witness :
    ("AccessDeniedException" : String) ≠ "ResourceNotFoundException"
    ∧ (Database.create_table_step (.error (.nameError "json")) = .error (.nameError "json")
      ∧ Database.create_table_step (.error (.keyError "id")) = .error (.keyError "id")
      ∧ Database.create_table_step (.error (.clientError "AccessDeniedException" "denied"))
          = .ok (.swallowed "AccessDeniedException" "denied")
      ∧ Database.create_table_step (.error (.clientError "ResourceNotFoundException" "denied"))
          = .ok .created) :=
  ⟨by decide, create_table_error_cases "json" "id" "AccessDeniedException" "denied" (by decide)⟩

/-- Claim C4: get_item never raises — under any backend outcome it returns
normally, with None both when the row is absent and when the backend raised a
ClientError (which is logged); hence with the row absent, the faulting and
non-faulting runs return identical results, so a caller cannot distinguish a
backend failure from a missing item. -/
theorem get_item_never_raises (f : Fault) (s : Store) (i : String) :
    (Database.get_item f s i).2 =
      .ok (match f with | some _ => none | none => lookupKey s.table i)
    ∧ (lookupKey s.table i = none →
        (Database.get_item f s i).2 = (Database.get_item none s i).2) := by
  constructor
  · cases f with
    | none => simp [Database.get_item, boto3TableGet]
    | some cm =>
        obtain ⟨c, m⟩ := cm
        simp [Database.get_item, boto3TableGet]
  · intro h
    cases f with
    | none => rfl
    | some cm =>
        obtain ⟨c, m⟩ := cm
        simp [Database.get_item, boto3TableGet, h]

theorem get_item_never_raises_witness :
    (Database.get_item (some ("InternalError", "boom")) ⟨[], []⟩ "1").2 = .ok none
    ∧ (Database.get_item (some ("InternalError", "boom")) ⟨[], []⟩ "1").2 =
        (Database.get_item none ⟨[], []⟩ "1").2 :=
  ⟨(get_item_never_raises (some ("InternalError", "boom")) ⟨[], []⟩ "1").1,
    (get_item_never_raises (some ("InternalError", "boom")) ⟨[], []⟩ "1").2 (by decide)⟩

/-- Claim C5: in put_item and delete_item the table-store operation comes
first (it heads the operation trace, and when it fails with a ClientError the
state — blob store included — is untouched) and the blob-store operation
second; a failure of the blob-store step (the NameError reached in put_item,
any injected ClientError in delete_item) does not roll back the
already-applied table-store operation. -/
theorem table_first_blob_second_no_rollback (f bf : Fault) (s : Store) (item : Item)
    (i x c m : String) (hid : lookupKey item "id" = some x) :
    (Database.put_item f s item).2.1.head? = some (.tablePut item)
    ∧ (Database.put_item none s item).1.table = upsert s.table x item
    ∧ (Database.put_item (some (c, m)) s item).1 = s
    ∧ (Database.delete_item f bf s i).2.1.head? = some (.tableDelete i)
    ∧ (Database.delete_item none bf s i).1.table = removeKey s.table i
    ∧ (Database.delete_item (some (c, m)) bf s i).1 = s := by
  refine ⟨?_, ?_, ?_, ?_, ?_, ?_⟩
  · cases f with
    | none => simp [Database.put_item, boto3TablePut, hid]
    | some cm =>
        obtain ⟨a, b⟩ := cm
        simp [Database.put_item, boto3TablePut]
  · simp [Database.put_item, boto3TablePut, hid]
  · simp [Database.put_item, boto3TablePut]
  · cases f with
    | none =>
        cases bf with
        | none => simp [Database.delete_item, boto3TableDelete, S3Bucket.delete_object]
        | some cm =>
            obtain ⟨a, b⟩ := cm
            simp [Database.delete_item, boto3TableDelete, S3Bucket.delete_object]
    | some cm =>
        obtain ⟨a, b⟩ := cm
        simp [Database.delete_item, boto3TableDelete]
  · cases bf with
    | none => simp [Database.delete_item, boto3TableDelete, S3Bucket.delete_object]
    | some cm =>
        obtain ⟨a, b⟩ := cm
        simp [Database.delete_item, boto3TableDelete, S3Bucket.delete_object]
  · simp [Database.delete_item, boto3TableDelete]

theorem table_first_blob_second_no_rollback_witness :
    lookupKey itemOne "id" = some "1"
    ∧ ((Database.put_item (some ("E", "boom")) ⟨[], []⟩ itemOne).2.1.head?
          = some (.tablePut itemOne)
      ∧ (Database.put_item none ⟨[], []⟩ itemOne).1.table
          = upsert ([] : List (String × Item)) "1" itemOne
      ∧ (Database.put_item (some ("E", "boom")) ⟨[], []⟩ itemOne).1 = ⟨[], []⟩
      ∧ (Database.delete_item (some ("E", "boom")) (some ("E", "boom")) ⟨[], []⟩ "1").2.1.head?
          = some (.tableDelete "1")
      ∧ (Database.delete_item none (some ("E", "boom")) ⟨[], []⟩ "1").1.table
          = removeKey ([] : List (String × Item)) "1"
      ∧ (Database.delete_item (some ("E", "boom")) (some ("E", "boom")) ⟨[], []⟩ "1").1
          = ⟨[], []⟩) :=
  ⟨by decide,
    table_first_blob_second_no_rollback (some ("E", "boom")) (some ("E", "boom"))
      ⟨[], []⟩ itemOne "1" "1" "E" "boom" (by decide)⟩

/-- Claim C6: deleting an id present in both stores succeeds, removes the
table row and the blob object, and a subsequent fetch from either store — the
table via get_item, the blob store via its key fetch — returns absent. -/
theorem delete_item_removes_both (s : Store) (i : String) (it : Item) (p : String)
    (ht : lookupKey s.table i = some it) (hb : lookupKey s.blobs i = some p) :
    (Database.delete_item none none s i).2.2 = .ok ()
    ∧ (Database.get_item none (Database.delete_item none none s i).1 i).2 = .ok none
    ∧ S3Bucket.get_object (Database.delete_item none none s i).1 i = none := by
  refine ⟨rfl, ?_, ?_⟩
  · simp [Database.delete_item, boto3TableDelete, S3Bucket.delete_object,
      Database.get_item, boto3TableGet, lookupKey_removeKey]
  · simp [Database.delete_item, boto3TableDelete, S3Bucket.delete_object,
      S3Bucket.get_object, lookupKey_removeKey]

theorem delete_item_removes_both_witness :
    lookupKey [("1", itemOne)] "1" = some itemOne
    ∧ lookupKey [("1", "payload")] "1" = some "payload"
    ∧ ((Database.delete_item none none ⟨[("1", itemOne)], [("1", "payload")]⟩ "1").2.2 = .ok ()
      ∧ (Database.get_item none
          (Database.delete_item none none ⟨[("1", itemOne)], [("1", "payload")]⟩ "1").1 "1").2
          = .ok none
      ∧ S3Bucket.get_object
          (Database.delete_item none none ⟨[("1", itemOne)], [("1", "payload")]⟩ "1").1 "1"
          = none) :=
  ⟨by decide, by decide,
    delete_item_removes_both ⟨[("1", itemOne)], [("1", "payload")]⟩ "1" itemOne "payload"
      (by decide) (by decide)⟩

/-- Claim C7: a POST for an item whose id already exists in the store yields
409 with error body "Item already exists", performs only the pre-check read,
and returns the state unchanged — both stores keep their existing values. -/
theorem post_duplicate_conflict (s : Store) (item old : Item) (i : String)
    (hid : lookupKey item "id" = some i) (hex : lookupKey s.table i = some old) :
    handlePostItem s item = (s, [.tableGet i], .ok ⟨409, .err "Item already exists"⟩) := by
  simp [handlePostItem, hid, Database.get_item, boto3TableGet, hex]

theorem post_duplicate_conflict_witness :
    lookupKey itemOne "id" = some "1"
    ∧ lookupKey [("1", itemOne)] "1" = some itemOne
    ∧ handlePostItem ⟨[("1", itemOne)], [("1", "payload")]⟩ itemOne
        = (⟨[("1", itemOne)], [("1", "payload")]⟩, [.tableGet "1"],
            .ok ⟨409, .err "Item already exists"⟩) :=
  ⟨by decide, by decide,
    post_duplicate_conflict ⟨[("1", itemOne)], [("1", "payload")]⟩ itemOne itemOne "1"
      (by decide) (by decide)⟩

/-- Claim C8: a PUT targeting an id absent from the store yields 404 with
error body "Item not found", performs only the pre-check read, and returns the
state unchanged — nothing is created in either store. -/
theorem put_missing_not_found (s : Store) (item : Item) (i : String)
    (hid : lookupKey item "id" = some i) (habs : lookupKey s.table i = none) :
    handlePutItem s item = (s, [.tableGet i], .ok ⟨404, .err "Item not found"⟩) := by
  simp [handlePutItem, hid, Database.get_item, boto3TableGet, habs]

theorem put_missing_not_found_witness :
    lookupKey itemOne "id" = some "1"
    ∧ lookupKey ([] : List (String × Item)) "1" = none
    ∧ handlePutItem ⟨[], []⟩ itemOne
        = (⟨[], []⟩, [.tableGet "1"], .ok ⟨404, .err "Item not found"⟩) :=
  ⟨by decide, by decide, put_missing_not_found ⟨[], []⟩ itemOne "1" (by decide) (by decide)⟩

/-- Claim C9: store-layer delete is idempotent — delete_item on an id absent
from both stores returns normally (no error) and leaves the state unchanged;
for any state, running delete_item twice in a row produces the same state as
running it once; and at the HTTP layer, deleting an absent id yields 404 with
error body "Item not found". -/
theorem delete_item_idempotent (s t : Store) (i : String)
    (ht : lookupKey s.table i = none) (hb : lookupKey s.blobs i = none) :
    Database.delete_item none none s i = (s, [.tableDelete i, .blobDelete i], .ok ())
    ∧ (Database.delete_item none none (Database.delete_item none none t i).1 i).1 =
        (Database.delete_item none none t i).1
    ∧ handleDeleteItem s i = (s, [.tableGet i], .ok ⟨404, .err "Item not found"⟩) := by
  refine ⟨?_, ?_, ?_⟩
  · simp [Database.delete_item, boto3TableDelete, S3Bucket.delete_object,
      removeKey_of_lookup_none _ _ ht, removeKey_of_lookup_none _ _ hb]
  · simp [Database.delete_item, boto3TableDelete, S3Bucket.delete_object, removeKey_idem]
  · simp [handleDeleteItem, Database.get_item, boto3TableGet, ht]

theorem delete_item_idempotent_witness :
    lookupKey ([] : List (String × Item)) "2" = none
    ∧ lookupKey ([] : List (String × String)) "2" = none
    ∧ (Database.delete_item none none ⟨[], []⟩ "2"
          = (⟨[], []⟩, [.tableDelete "2", .blobDelete "2"], .ok ())
      ∧ (Database.delete_item none none
            (Database.delete_item none none ⟨[("2", itemOne)], [("2", "p")]⟩ "2").1 "2").1 =
          (Database.delete_item none none ⟨[("2", itemOne)], [("2", "p")]⟩ "2").1
      ∧ handleDeleteItem ⟨[], []⟩ "2"
          = (⟨[], []⟩, [.tableGet "2"], .ok ⟨404, .err "Item not found"⟩)) :=
  ⟨by decide, by decide,
    delete_item_idempotent ⟨[], []⟩ ⟨[("2", itemOne)], [("2", "p")]⟩ "2"
      (by decide) (by decide)⟩

/-- Claim C10: a GET whose item-id path segment is empty yields 400 with error
body "Item ID not provided", and its operation trace is empty — no storage
operation is performed. -/
theorem get_empty_id_bad_request (s : Store) :
    handleGetItem s "" = ([], ⟨400, .err "Item ID not provided"⟩) := by
  simp [handleGetItem]
